import Mathlib

/-!
Verification of the `financial_volatility_pipeline` Airflow DAG
(`src/dags/financial_pipeline.py`).

The warehouse relations are modelled as Lean lists, SQL `NULL` as `Option`,
the `NUMERIC` column type as `ℚ`, dates as `ℤ` (days since the 1970-01-01
epoch), and the PostgreSQL statements of each task as functions on a
`Warehouse` state.  The DAG's task chain
`setup_staging_table >> locate_csv >> load_staging >> run_data_quality_checks
>> create_dim_tables >> load_fact_table >> calculate_volatility_view >>
report_top_volatility >> log_execution_summary` is modelled by
`financial_volatility_pipeline`, which also records the run's terminal
status.
-/

/-- One row of the `staging` table, in the column order of the `COPY`
statement: `(date, symbol, open, high, low, close, volume)`.  Every column
except `symbol` is nullable in the schema. -/
structure StagingRow where
  date : Option ℤ
  symbol : String
  «open» : Option ℚ
  high : Option ℚ
  low : Option ℚ
  close : Option ℚ
  volume : Option ℤ
deriving DecidableEq, Repr

/-- SQL `<` on nullable dates: a comparison with `NULL` is not true. -/
def dateLtB : Option ℤ → Option ℤ → Bool
  | some a, some b => decide (a < b)
  | _, _ => false

/-- The rows of the `LAG` window that strictly precede date `d` in the
partition of `sym`: same `symbol`, strictly smaller `date`. -/
def prevRows (s : List StagingRow) (sym : String) (d : Option ℤ) : List StagingRow :=
  s.filter (fun p => decide (p.symbol = sym) && dateLtB p.date d)

/-- The row with the greatest date among a list of rows (the immediately
preceding row of the `ORDER BY s.date` window when dates are distinct). -/
def maxByDate : List StagingRow → Option StagingRow
  | [] => none
  | r :: rs =>
    match maxByDate rs with
    | none => some r
    | some m => if dateLtB m.date r.date then some r else some m

/-- `LAG(s.close) OVER (PARTITION BY s.symbol ORDER BY s.date)`: the close of
the immediately preceding row of the partition, `NULL` when there is none.
Faithful to the SQL window provided each partition has pairwise distinct
dates (the window order is unspecified on ties). -/
def lagClose (s : List StagingRow) (sym : String) (d : Option ℤ) : Option ℚ :=
  (maxByDate (prevRows s sym d)).bind StagingRow.close

/-- The `variacao_diaria` expression of `load_fact_table`:
`(s.close - LAG(s.close) OVER w) / NULLIF(LAG(s.close) OVER w, 0) * 100`.
`NULL` when the close or the lagged close is `NULL`, or when `NULLIF` turns a
zero lagged close into `NULL`. -/
def variacao_diaria_expr (s : List StagingRow) (r : StagingRow) : Option ℚ :=
  match r.close, lagClose s r.symbol r.date with
  | some c, some p => if p = 0 then none else some ((c - p) / p * 100)
  | _, _ => none

/-- The boolean of the `SQLCheckOperator` task `run_data_quality_checks`:
`COUNT(*) = 750000 AND SUM(CASE WHEN close IS NULL OR date IS NULL THEN 1
ELSE 0 END) = 0` over `staging`. -/
def run_data_quality_checks (s : List StagingRow) : Bool :=
  decide (s.length = 750000) &&
    decide (s.countP (fun r => decide (r.close = none) || decide (r.date = none)) = 0)

/-- Modelled from the spec: the Quality Gate predicate "row count equals the
expected source count AND zero rows have a null value in {date, close}",
parameterized by the expected row count. -/
def qualityGatePredicate (expectedCount : ℕ) (s : List StagingRow) : Bool :=
  decide (s.length = expectedCount) &&
    decide (s.countP (fun r => decide (r.close = none) || decide (r.date = none)) = 0)

/-- One row of `dim_instrumento`: `ticker` is the primary key. -/
structure DimInstrumentoRow where
  ticker : String
  nome_ativo : String
  tipo_ativo : String
deriving DecidableEq, Repr

/-- One row of `dim_tempo`: `data_id` is the primary key. -/
structure DimTempoRow where
  data_id : ℤ
  ano : ℤ
  mes : ℤ
  dia_da_semana : ℤ
deriving DecidableEq, Repr

/-- Distinct elements of a list, keeping the first occurrence of each
(`SELECT DISTINCT`; the row order produced by the database is unspecified,
the model fixes first-appearance order). -/
def distinctList {α : Type} [DecidableEq α] : List α → List α
  | [] => []
  | x :: xs => x :: (distinctList xs).filter (fun y => decide (y ≠ x))

/-- `INSERT INTO ... SELECT DISTINCT ... ON CONFLICT (key) DO NOTHING`:
append a row built by `mk` for each distinct key of `ks` that is not already
a key of `d`. -/
def upsertRows {κ ρ : Type} [DecidableEq κ] (key : ρ → κ) (mk : κ → ρ)
    (d : List ρ) (ks : List κ) : List ρ :=
  d ++ ((distinctList ks).filter (fun k => decide (k ∉ d.map key))).map mk

/-- Days-since-epoch to a `(year, month, day)` civil date (proleptic
Gregorian), modelling PostgreSQL `EXTRACT(YEAR/MONTH FROM date)`. -/
def civilFromDays (z0 : ℤ) : ℤ × ℤ × ℤ :=
  let z := z0 + 719468
  let era := Int.fdiv z 146097
  let doe := z - era * 146097
  let yoe := Int.fdiv (doe - Int.fdiv doe 1460 + Int.fdiv doe 36524 - Int.fdiv doe 146096) 365
  let y := yoe + era * 400
  let doy := doe - (365 * yoe + Int.fdiv yoe 4 - Int.fdiv yoe 100)
  let mp := Int.fdiv (5 * doy + 2) 153
  let d := doy - Int.fdiv (153 * mp + 2) 5 + 1
  let m := mp + (if mp < 10 then 3 else -9)
  (y + (if m ≤ 2 then 1 else 0), m, d)

/-- `EXTRACT(YEAR FROM date)`. -/
def extractYear (d : ℤ) : ℤ := (civilFromDays d).1

/-- `EXTRACT(MONTH FROM date)`. -/
def extractMonth (d : ℤ) : ℤ := (civilFromDays d).2.1

/-- `EXTRACT(DOW FROM date)`: 0 = Sunday … 6 = Saturday; the epoch day
1970-01-01 was a Thursday (4). -/
def extractDow (d : ℤ) : ℤ := (d + 4) % 7

/-- `DATE_TRUNC('week', d)`: the Monday on or before `d`. -/
def weekTrunc (d : ℤ) : ℤ := d - (d + 3) % 7

/-- One row of the `volatility_weekly` materialized view. -/
structure VolRow where
  ticker : String
  week : Option ℤ
  vol : Option ℝ

/-- One row of `fact_movimentacao_diaria`; `id` is the `SERIAL` primary
key. -/
structure FactRow where
  id : ℕ
  ticker : String
  data_id : Option ℤ
  «open» : Option ℚ
  high : Option ℚ
  low : Option ℚ
  close : Option ℚ
  volume : Option ℤ
  variacao_diaria : Option ℚ
deriving DecidableEq, Repr

/-- The fact row produced for staging row `r` (with full staging `s` as the
window context) and serial id `i`. -/
def factRowOf (s : List StagingRow) (r : StagingRow) (i : ℕ) : FactRow :=
  ⟨i, r.symbol, r.date, r.«open», r.high, r.low, r.close, r.volume,
    variacao_diaria_expr s r⟩

/-- The rows inserted by `INSERT INTO fact_movimentacao_diaria ... SELECT ...
FROM staging s`: one fact row per staging row of `l`, with serial ids drawn
from the sequence position `seq` (ids `seq+1`, `seq+2`, …). -/
def mkFactRows (s : List StagingRow) : List StagingRow → ℕ → List FactRow
  | [], _ => []
  | r :: rs, seq => factRowOf s r (seq + 1) :: mkFactRows s rs (seq + 1)

/-- The whole warehouse state: the five relations plus the `SERIAL` sequence
backing `fact_movimentacao_diaria.id` (a PostgreSQL sequence is not reset by
a plain `TRUNCATE`, which defaults to `CONTINUE IDENTITY`). -/
structure Warehouse where
  staging : List StagingRow
  dim_instrumento : List DimInstrumentoRow
  dim_tempo : List DimTempoRow
  fact_movimentacao_diaria : List FactRow
  fact_id_seq : ℕ
  volatility_weekly : List VolRow

/-- The warehouse before the very first run. -/
def emptyWarehouse : Warehouse := ⟨[], [], [], [], 0, []⟩

/-- The `create_dim_tables` task: upsert the distinct symbols into
`dim_instrumento` (`'Ativo ' || symbol`, `'Acao'`) and the distinct dates
into `dim_tempo` with derived year/month/day-of-week, both with
`ON CONFLICT DO NOTHING`.  A `NULL` date would violate the `dim_tempo`
primary key; the quality gate that precedes this task guarantees there is
none, so null dates are dropped by `filterMap`. -/
def create_dim_tables (w : Warehouse) : Warehouse :=
  { w with
    dim_instrumento :=
      upsertRows DimInstrumentoRow.ticker
        (fun t => ⟨t, "Ativo " ++ t, "Acao"⟩)
        w.dim_instrumento (w.staging.map (fun r => r.symbol))
    dim_tempo :=
      upsertRows DimTempoRow.data_id
        (fun d => ⟨d, extractYear d, extractMonth d, extractDow d⟩)
        w.dim_tempo (w.staging.filterMap (fun r => r.date)) }

/-- The `load_fact_table` task: `TRUNCATE fact_movimentacao_diaria` (the id
sequence continues) then insert one row per staging row with the windowed
`variacao_diaria`. -/
def load_fact_table (w : Warehouse) : Warehouse :=
  { w with
    fact_movimentacao_diaria := mkFactRows w.staging w.staging w.fact_id_seq
    fact_id_seq := w.fact_id_seq + w.staging.length }

/-- The columns of the fact table read by the volatility view:
`(ticker, data_id, variacao_diaria)`. -/
def factCols (f : List FactRow) : List (String × Option ℤ × Option ℚ) :=
  f.map (fun fr => (fr.ticker, fr.data_id, fr.variacao_diaria))

/-- The `GROUP BY` key of the view: `(ticker, DATE_TRUNC('week', data_id))`. -/
def volKeyOfCol (c : String × Option ℤ × Option ℚ) : String × Option ℤ :=
  (c.1, c.2.1.map weekTrunc)

/-- The non-null `variacao_diaria` values of one `(ticker, week)` group
(the view filters `WHERE variacao_diaria IS NOT NULL` before grouping). -/
def groupVarVals (cols : List (String × Option ℤ × Option ℚ))
    (k : String × Option ℤ) : List ℚ :=
  ((cols.filter (fun c => c.2.2.isSome)).filter
      (fun c => decide (volKeyOfCol c = k))).filterMap (fun c => c.2.2)

/-- `STDDEV_SAMP`: the sample standard deviation, `NULL` on fewer than two
observations. -/
noncomputable def stddev_samp (l : List ℚ) : Option ℝ :=
  if l.length ≤ 1 then none
  else
    some (Real.sqrt
      (((l.map (fun x => ((x : ℝ) - (l.map (fun y => (y : ℝ))).sum / l.length) ^ 2)).sum)
        / (l.length - 1)))

/-- The body of the `volatility_weekly` view: one row per `(ticker, week)`
group of the non-null `variacao_diaria` rows, with the group's sample
standard deviation. -/
noncomputable def volFromCols
    (cols : List (String × Option ℤ × Option ℚ)) : List VolRow :=
  (distinctList ((cols.filter (fun c => c.2.2.isSome)).map volKeyOfCol)).map
    (fun k => ⟨k.1, k.2, stddev_samp (groupVarVals cols k)⟩)

/-- The `calculate_volatility_view` task: `REFRESH MATERIALIZED VIEW
volatility_weekly`, recomputing the view from the current fact table. -/
noncomputable def calculate_volatility_view (w : Warehouse) : Warehouse :=
  { w with volatility_weekly := volFromCols (factCols w.fact_movimentacao_diaria) }

/-- The distinct tickers of the aggregate, in first-appearance order
(`GROUP BY ticker`). -/
def tickersOf (agg : List VolRow) : List String :=
  distinctList (agg.map VolRow.ticker)

/-- `AVG(vol)` for one ticker: SQL `AVG` ignores `NULL` inputs and is `NULL`
when every input is `NULL`. -/
noncomputable def avg_vol (agg : List VolRow) (t : String) : Option ℝ :=
  let vs := (agg.filter (fun v => decide (v.ticker = t))).filterMap VolRow.vol
  if vs.length = 0 then none else some (vs.sum / vs.length)

/-- Strict "ranks higher" of `ORDER BY avg_volatility DESC`: PostgreSQL
sorts `NULL` first in a descending order, so a `NULL` average ranks above
every numeric average. -/
def volRankGt : Option ℝ → Option ℝ → Prop
  | none, none => False
  | none, some _ => True
  | some _, none => False
  | some a, some b => b < a

open Classical in
/-- `ORDER BY avg_volatility DESC LIMIT 1` over `(ticker, avg)` pairs: keep
the highest-ranked pair, earlier pairs winning ties (the SQL tie order is
unspecified; the model fixes one). -/
noncomputable def pickTop :
    Option (String × Option ℝ) → List (String × Option ℝ) → Option (String × Option ℝ)
  | acc, [] => acc
  | none, x :: xs => pickTop (some x) xs
  | some m, x :: xs => pickTop (some (if volRankGt x.2 m.2 then x else m)) xs

/-- The observable outcome of `_report_top_volatility`: either the defined
"no data" message (`'Nenhum dado de volatilidade disponível.'`) or the
fixed-format message naming one ticker and carrying its average weekly
volatility (rendered with two decimals in the Python f-string). -/
inductive ReportMessage where
  | noData
  | topVolatility (ticker : String) (avg : Option ℝ)

/-- The `report_top_volatility` task: run the `AVG ... GROUP BY ticker ORDER
BY avg_volatility DESC LIMIT 1` query and render the message. -/
noncomputable def report_top_volatility (agg : List VolRow) : ReportMessage :=
  match pickTop none ((tickersOf agg).map (fun t => (t, avg_vol agg t))) with
  | none => ReportMessage.noData
  | some (t, a) => ReportMessage.topVolatility t a

/-- Terminal status of one DAG run. -/
inductive RunStatus where
  | succeeded
  | failed
deriving DecidableEq, Repr

/-- One run of the DAG `financial_volatility_pipeline` over the task chain
of the source.  `csv` is the content of the source file, `none` when the
file is absent (`_locate_csv` raises `FileNotFoundError` and every
downstream task is skipped).  `load_staging` truncates and reloads
`staging`; a false quality check fails the run before any dimensional or
fact task executes; otherwise the dimension upserts, the fact rebuild and
the view refresh run in order.  The reporting tasks only read state. -/
noncomputable def financial_volatility_pipeline
    (csv : Option (List StagingRow)) (w : Warehouse) : Warehouse × RunStatus :=
  match csv with
  | none => (w, RunStatus.failed)
  | some rows =>
    match run_data_quality_checks rows with
    | false => ({ w with staging := rows }, RunStatus.failed)
    | true =>
      (calculate_volatility_view
        (load_fact_table (create_dim_tables { w with staging := rows })),
       RunStatus.succeeded)

/-- A sequence of runs against the same warehouse. -/
noncomputable def pipeline_runs :
    List (Option (List StagingRow)) → Warehouse → Warehouse
  | [], w => w
  | c :: cs, w => pipeline_runs cs (financial_volatility_pipeline c w).1

/-- An Airflow task failure is either an `AirflowFailException`-style
failure, which skips retries, or an ordinary exception. -/
inductive AirflowExceptionKind where
  | failNoRetry
  | retryable
deriving DecidableEq, Repr

/-- Airflow retry semantics: a task whose action keeps raising an ordinary
exception is re-attempted until its `retries` budget is exhausted, for
`retries + 1` attempts in total; an `AirflowFailException` is never
retried. -/
def airflow_task_attempts (retries : ℕ) : AirflowExceptionKind → ℕ
  | AirflowExceptionKind.failNoRetry => 1
  | AirflowExceptionKind.retryable => retries + 1

/-- `default_args = {'retries': 3, ...}` of the DAG, applied to every task. -/
def default_args_retries : ℕ := 3

/-- `SQLCheckOperator` raises a plain `AirflowException` when its check
returns false, which Airflow treats as an ordinary, retryable failure. -/
def sql_check_failure_kind : AirflowExceptionKind := AirflowExceptionKind.retryable

/-- `_locate_csv` raises `FileNotFoundError`, an ordinary Python exception,
which Airflow treats as a retryable failure. -/
def locate_csv_failure_kind : AirflowExceptionKind := AirflowExceptionKind.retryable

/-! ### Basic lemmas about the window machinery -/

lemma dateLtB_none_left (d : Option ℤ) : dateLtB none d = false := by
  cases d <;> rfl

lemma dateLtB_none_right (d : Option ℤ) : dateLtB d none = false := by
  cases d <;> rfl

lemma dateLtB_some_iff {a b : ℤ} : dateLtB (some a) (some b) = true ↔ a < b := by
  simp [dateLtB]

lemma dateLtB_irrefl (d : Option ℤ) : dateLtB d d = false := by
  cases d with
  | none => rfl
  | some a => simp [dateLtB]

lemma mem_prevRows {s : List StagingRow} {sym : String} {d : Option ℤ} {p : StagingRow} :
    p ∈ prevRows s sym d ↔ p ∈ s ∧ p.symbol = sym ∧ dateLtB p.date d = true := by
  simp [prevRows, List.mem_filter, Bool.and_eq_true, and_assoc]

lemma maxByDate_eq_none {l : List StagingRow} : maxByDate l = none ↔ l = [] := by
  cases l with
  | nil => simp [maxByDate]
  | cons r rs =>
    simp only [maxByDate]
    cases maxByDate rs with
    | none => simp
    | some m =>
      by_cases h : dateLtB m.date r.date = true
      · simp [h]
      · simp [h]

lemma maxByDate_mem {l : List StagingRow} {m : StagingRow}
    (h : maxByDate l = some m) : m ∈ l := by
  induction l with
  | nil => simp [maxByDate] at h
  | cons r rs ih =>
    simp only [maxByDate] at h
    cases h' : maxByDate rs with
    | none =>
      rw [h'] at h
      simp at h
      simp [h]
    | some m' =>
      rw [h'] at h
      by_cases hc : dateLtB m'.date r.date = true
      · simp [hc] at h
        simp [h]
      · simp [hc] at h
        exact List.mem_cons_of_mem _ (ih (h ▸ h'))

lemma maxByDate_not_lt :
    ∀ (l : List StagingRow) (m : StagingRow), (∀ x ∈ l, x.date ≠ none) →
      maxByDate l = some m → ∀ x ∈ l, dateLtB m.date x.date = false := by
  intro l
  induction l with
  | nil => intro m _ hm; simp [maxByDate] at hm
  | cons r rs ih =>
    intro m hd hm
    have hdrs : ∀ x ∈ rs, x.date ≠ none := fun x hx => hd x (List.mem_cons_of_mem _ hx)
    simp only [maxByDate] at hm
    cases h' : maxByDate rs with
    | none =>
      rw [h'] at hm
      simp at hm
      have hrs : rs = [] := maxByDate_eq_none.mp h'
      subst hrs
      intro x hx
      simp at hx
      subst hx
      rw [← hm]
      exact dateLtB_irrefl _
    | some m' =>
      rw [h'] at hm
      have hm'rs : m' ∈ rs := maxByDate_mem h'
      by_cases hc : dateLtB m'.date r.date = true
      · simp [hc] at hm
        subst hm
        intro x hx
        rcases List.mem_cons.mp hx with hxr | hxs
        · subst hxr
          exact dateLtB_irrefl _
        · have h2 := ih m' hdrs h' x hxs
          cases hdr : r.date with
          | none => exact absurd hdr (hd r (List.mem_cons_self r rs))
          | some dr =>
            cases hdx : x.date with
            | none => exact absurd hdx (hdrs x hxs)
            | some dx =>
              cases hdm : m'.date with
              | none => exact absurd hdm (hdrs m' hm'rs)
              | some dm =>
                rw [hdm, hdr] at hc
                rw [hdm, hdx] at h2
                simp [dateLtB] at hc h2 ⊢
                omega
      · simp [hc] at hm
        subst hm
        intro x hx
        rcases List.mem_cons.mp hx with hxr | hxs
        · subst hxr
          exact Bool.not_eq_true _ ▸ (Bool.eq_false_iff.mpr (fun hb => hc hb))
        · exact ih _ hdrs h' x hxs

lemma maxPrev_eq {s : List StagingRow}
    (hnn : ∀ r ∈ s, r.date ≠ none ∧ r.close ≠ none)
    (hkey : (s.map fun r => (r.symbol, r.date)).Nodup) {sym : String} {d : Option ℤ}
    {p : StagingRow} (hp : p ∈ prevRows s sym d)
    (hpmax : ∀ q ∈ s, q.symbol = sym → dateLtB q.date d = true →
      dateLtB p.date q.date = false) :
    maxByDate (prevRows s sym d) = some p := by
  cases hmx : maxByDate (prevRows s sym d) with
  | none =>
    have h0 := maxByDate_eq_none.mp hmx
    rw [h0] at hp
    simp at hp
  | some m =>
    have hm_mem := maxByDate_mem hmx
    have hmS := mem_prevRows.mp hm_mem
    have hpS := mem_prevRows.mp hp
    have hdates : ∀ x ∈ prevRows s sym d, x.date ≠ none :=
      fun x hx => (hnn x (mem_prevRows.mp hx).1).1
    have h1 : dateLtB m.date p.date = false :=
      maxByDate_not_lt _ m hdates hmx p hp
    have h2 : dateLtB p.date m.date = false := hpmax m hmS.1 hmS.2.1 hmS.2.2
    cases hdp : p.date with
    | none => exact absurd hdp (hnn p hpS.1).1
    | some dp =>
      cases hdm : m.date with
      | none => exact absurd hdm (hnn m hmS.1).1
      | some dm =>
        rw [hdp, hdm] at h1 h2
        simp [dateLtB] at h1 h2
        have hdd : dp = dm := by omega
        have hkeq : (fun r : StagingRow => (r.symbol, r.date)) p =
            (fun r : StagingRow => (r.symbol, r.date)) m := by
          simp only [Prod.mk.injEq]
          exact ⟨hpS.2.1.trans hmS.2.1.symm, by rw [hdp, hdm, hdd]⟩
        have hpm : p = m := List.inj_on_of_nodup_map hkey hpS.1 hmS.1 hkeq
        rw [hpm]

/-! ### Spec-side characterisation of the null `variacao_diaria` -/

/-- The spec's "the row's date is the earliest date present in staging for
its ticker": no staged row of the same ticker has a strictly smaller date. -/
def isEarliestDate (s : List StagingRow) (sym : String) (d : Option ℤ) : Prop :=
  ∀ p ∈ s, p.symbol = sym → dateLtB p.date d = false

/-- The spec's "the close of that ticker's immediately preceding date is
zero": some staged row of the same ticker precedes `d`, is latest among the
preceding rows, and has close 0. -/
def prevCloseZero (s : List StagingRow) (sym : String) (d : Option ℤ) : Prop :=
  ∃ p ∈ s, p.symbol = sym ∧ dateLtB p.date d = true ∧ p.close = some 0 ∧
    ∀ q ∈ s, q.symbol = sym → dateLtB q.date d = true → dateLtB p.date q.date = false

lemma variacao_none_iff {s : List StagingRow}
    (hnn : ∀ r ∈ s, r.date ≠ none ∧ r.close ≠ none)
    (hkey : (s.map fun r => (r.symbol, r.date)).Nodup)
    {r : StagingRow} (hr : r ∈ s) :
    variacao_diaria_expr s r = none ↔
      isEarliestDate s r.symbol r.date ∨ prevCloseZero s r.symbol r.date := by
  obtain ⟨c, hc⟩ : ∃ c, r.close = some c := by
    cases h : r.close with
    | none => exact absurd h (hnn r hr).2
    | some c => exact ⟨c, rfl⟩
  cases hmx : maxByDate (prevRows s r.symbol r.date) with
  | none =>
    have hpe : prevRows s r.symbol r.date = [] := maxByDate_eq_none.mp hmx
    have hlag : lagClose s r.symbol r.date = none := by
      unfold lagClose
      rw [hmx]
      rfl
    have hv : variacao_diaria_expr s r = none := by
      unfold variacao_diaria_expr
      rw [hc, hlag]
    have hE : isEarliestDate s r.symbol r.date := by
      intro p hps hpsym
      cases hb : dateLtB p.date r.date with
      | false => rfl
      | true =>
        have hmem : p ∈ prevRows s r.symbol r.date :=
          mem_prevRows.mpr ⟨hps, hpsym, hb⟩
        rw [hpe] at hmem
        simp at hmem
    exact iff_of_true hv (Or.inl hE)
  | some m =>
    have hmP := mem_prevRows.mp (maxByDate_mem hmx)
    obtain ⟨pc, hpc⟩ : ∃ pc, m.close = some pc := by
      cases h : m.close with
      | none => exact absurd h (hnn m hmP.1).2
      | some pc => exact ⟨pc, rfl⟩
    have hlag : lagClose s r.symbol r.date = some pc := by
      unfold lagClose
      rw [hmx]
      simp [hpc]
    have hmmax : ∀ q ∈ s, q.symbol = r.symbol → dateLtB q.date r.date = true →
        dateLtB m.date q.date = false := by
      intro q hq hqs hqlt
      exact maxByDate_not_lt _ m (fun x hx => (hnn x (mem_prevRows.mp hx).1).1) hmx q
        (mem_prevRows.mpr ⟨hq, hqs, hqlt⟩)
    by_cases hz : pc = 0
    · have hv : variacao_diaria_expr s r = none := by
        unfold variacao_diaria_expr
        rw [hc, hlag]
        simp [hz]
      have hP : prevCloseZero s r.symbol r.date :=
        ⟨m, hmP.1, hmP.2.1, hmP.2.2, by rw [hpc, hz], hmmax⟩
      exact iff_of_true hv (Or.inr hP)
    · have hv : variacao_diaria_expr s r = some ((c - pc) / pc * 100) := by
        unfold variacao_diaria_expr
        rw [hc, hlag]
        simp [hz]
      apply iff_of_false
      · simp [hv]
      · rintro (hE | hP)
        · have hfalse := hE m hmP.1 hmP.2.1
          exact absurd (hfalse.symm.trans hmP.2.2) (by decide)
        · obtain ⟨p, hps, hpsym, hplt, hp0, hpmaxP⟩ := hP
          have hpprev : p ∈ prevRows s r.symbol r.date :=
            mem_prevRows.mpr ⟨hps, hpsym, hplt⟩
          have hmx2 := maxPrev_eq hnn hkey hpprev hpmaxP
          rw [hmx] at hmx2
          have hpm : m = p := Option.some.inj hmx2
          rw [hpm] at hpc
          exact hz (Option.some.inj (hpc.symm.trans hp0))

lemma variacao_of_prev {s : List StagingRow}
    (hnn : ∀ r ∈ s, r.date ≠ none ∧ r.close ≠ none)
    (hkey : (s.map fun r => (r.symbol, r.date)).Nodup)
    {r p : StagingRow} (hp : p ∈ s) (hsym : p.symbol = r.symbol)
    (hlt : dateLtB p.date r.date = true)
    (hmaxp : ∀ q ∈ s, q.symbol = r.symbol → dateLtB q.date r.date = true →
      dateLtB p.date q.date = false)
    {c pc : ℚ} (hc : r.close = some c) (hpc : p.close = some pc) :
    variacao_diaria_expr s r = if pc = 0 then none else some ((c - pc) / pc * 100) := by
  have hpprev : p ∈ prevRows s r.symbol r.date := mem_prevRows.mpr ⟨hp, hsym, hlt⟩
  have hmx := maxPrev_eq hnn hkey hpprev hmaxp
  have hlag : lagClose s r.symbol r.date = some pc := by
    unfold lagClose
    rw [hmx]
    simp [hpc]
  unfold variacao_diaria_expr
  rw [hc, hlag]

/-! ### Fact rows and their staging origin -/

lemma mem_mkFactRows {s : List StagingRow} :
    ∀ {l : List StagingRow} {seq : ℕ} {fr : FactRow}, fr ∈ mkFactRows s l seq →
      ∃ r ∈ l, ∃ i, fr = factRowOf s r i := by
  intro l
  induction l with
  | nil => intro seq fr h; simp [mkFactRows] at h
  | cons r rs ih =>
    intro seq fr h
    rcases List.mem_cons.mp h with h1 | h2
    · exact ⟨r, List.mem_cons_self r rs, seq + 1, h1⟩
    · obtain ⟨r', hr', i, hi⟩ := ih h2
      exact ⟨r', List.mem_cons_of_mem _ hr', i, hi⟩

lemma mkFactRows_mem_of_mem {s : List StagingRow} :
    ∀ {l : List StagingRow} {r : StagingRow}, r ∈ l →
      ∀ seq, ∃ i, factRowOf s r i ∈ mkFactRows s l seq := by
  intro l
  induction l with
  | nil => intro r h _; simp at h
  | cons q qs ih =>
    intro r h seq
    rcases List.mem_cons.mp h with h1 | h2
    · exact ⟨seq + 1, by rw [h1]; exact List.mem_cons_self _ _⟩
    · obtain ⟨i, hi⟩ := ih h2 (seq + 1)
      exact ⟨i, List.mem_cons_of_mem _ hi⟩

/-! ### Task-level projection lemmas -/

@[simp] lemma create_dim_tables_staging (w : Warehouse) :
    (create_dim_tables w).staging = w.staging := rfl

@[simp] lemma create_dim_tables_fact (w : Warehouse) :
    (create_dim_tables w).fact_movimentacao_diaria = w.fact_movimentacao_diaria := rfl

@[simp] lemma create_dim_tables_seq (w : Warehouse) :
    (create_dim_tables w).fact_id_seq = w.fact_id_seq := rfl

@[simp] lemma create_dim_tables_vol (w : Warehouse) :
    (create_dim_tables w).volatility_weekly = w.volatility_weekly := rfl

@[simp] lemma create_dim_tables_dim_instrumento (w : Warehouse) :
    (create_dim_tables w).dim_instrumento =
      upsertRows DimInstrumentoRow.ticker (fun t => ⟨t, "Ativo " ++ t, "Acao"⟩)
        w.dim_instrumento (w.staging.map (fun r => r.symbol)) := rfl

@[simp] lemma create_dim_tables_dim_tempo (w : Warehouse) :
    (create_dim_tables w).dim_tempo =
      upsertRows DimTempoRow.data_id
        (fun d => ⟨d, extractYear d, extractMonth d, extractDow d⟩)
        w.dim_tempo (w.staging.filterMap (fun r => r.date)) := rfl

@[simp] lemma load_fact_table_staging (w : Warehouse) :
    (load_fact_table w).staging = w.staging := rfl

@[simp] lemma load_fact_table_fact (w : Warehouse) :
    (load_fact_table w).fact_movimentacao_diaria =
      mkFactRows w.staging w.staging w.fact_id_seq := rfl

@[simp] lemma load_fact_table_seq (w : Warehouse) :
    (load_fact_table w).fact_id_seq = w.fact_id_seq + w.staging.length := rfl

@[simp] lemma load_fact_table_dim_instrumento (w : Warehouse) :
    (load_fact_table w).dim_instrumento = w.dim_instrumento := rfl

@[simp] lemma load_fact_table_dim_tempo (w : Warehouse) :
    (load_fact_table w).dim_tempo = w.dim_tempo := rfl

@[simp] lemma load_fact_table_vol (w : Warehouse) :
    (load_fact_table w).volatility_weekly = w.volatility_weekly := rfl

@[simp] lemma calculate_volatility_view_staging (w : Warehouse) :
    (calculate_volatility_view w).staging = w.staging := rfl

@[simp] lemma calculate_volatility_view_fact (w : Warehouse) :
    (calculate_volatility_view w).fact_movimentacao_diaria =
      w.fact_movimentacao_diaria := rfl

@[simp] lemma calculate_volatility_view_seq (w : Warehouse) :
    (calculate_volatility_view w).fact_id_seq = w.fact_id_seq := rfl

@[simp] lemma calculate_volatility_view_dim_instrumento (w : Warehouse) :
    (calculate_volatility_view w).dim_instrumento = w.dim_instrumento := rfl

@[simp] lemma calculate_volatility_view_dim_tempo (w : Warehouse) :
    (calculate_volatility_view w).dim_tempo = w.dim_tempo := rfl

@[simp] lemma calculate_volatility_view_vol (w : Warehouse) :
    (calculate_volatility_view w).volatility_weekly =
      volFromCols (factCols w.fact_movimentacao_diaria) := rfl

lemma run_some (rows : List StagingRow) (w : Warehouse) :
    financial_volatility_pipeline (some rows) w =
      (match run_data_quality_checks rows with
       | false => ({ w with staging := rows }, RunStatus.failed)
       | true =>
         (calculate_volatility_view
           (load_fact_table (create_dim_tables { w with staging := rows })),
          RunStatus.succeeded)) := rfl

lemma run_fail {rows : List StagingRow} {w : Warehouse}
    (h : run_data_quality_checks rows = false) :
    financial_volatility_pipeline (some rows) w =
      ({ w with staging := rows }, RunStatus.failed) := by
  rw [run_some, h]

lemma run_success {rows : List StagingRow} {w : Warehouse}
    (h : run_data_quality_checks rows = true) :
    financial_volatility_pipeline (some rows) w =
      (calculate_volatility_view
        (load_fact_table (create_dim_tables { w with staging := rows })),
       RunStatus.succeeded) := by
  rw [run_some, h]

/-! ### C1 and C2: the windowed daily variation -/

/-- C1: after a successful run of the fact-building step, a fact row's
`variacao_diaria` is null exactly when its date is the earliest staged date
for its ticker or the close of the ticker's immediately preceding date is
zero.  The hypotheses are what the pipeline guarantees at this point: the
quality gate that precedes `load_fact_table` rules out null dates and
closes, and `(ticker, date)` pairs are assumed unique (with duplicate dates
the SQL window order, hence `LAG`, is unspecified). -/
theorem C1_variacao_diaria_null_iff (w : Warehouse)
    (hnn : ∀ r ∈ w.staging, r.date ≠ none ∧ r.close ≠ none)
    (hkey : (w.staging.map fun r => (r.symbol, r.date)).Nodup) :
    ∀ fr ∈ (load_fact_table w).fact_movimentacao_diaria,
      (fr.variacao_diaria = none ↔
        isEarliestDate w.staging fr.ticker fr.data_id ∨
        prevCloseZero w.staging fr.ticker fr.data_id) := by
  intro fr hfr
  obtain ⟨r, hr, i, hfr_eq⟩ := mem_mkFactRows hfr
  subst hfr_eq
  exact variacao_none_iff hnn hkey hr

/-- Staging content of the spec's scenario: ticker `XYZ` with closes
`[10, 12, 9]` on three consecutive dates. -/
def xyzStaging : List StagingRow :=
  [⟨some 0, "XYZ", none, none, none, some 10, none⟩,
   ⟨some 1, "XYZ", none, none, none, some 12, none⟩,
   ⟨some 2, "XYZ", none, none, none, some 9, none⟩]

/-- A warehouse whose staging table holds the `XYZ` scenario. -/
def xyzWarehouse : Warehouse := ⟨xyzStaging, [], [], [], 0, []⟩

/-- Witness for C1 at the `XYZ` scenario staging. -/
theorem C1_variacao_diaria_null_iff_witness :
    (∀ r ∈ xyzWarehouse.staging, r.date ≠ none ∧ r.close ≠ none) ∧
    (xyzWarehouse.staging.map fun r => (r.symbol, r.date)).Nodup ∧
    ∀ fr ∈ (load_fact_table xyzWarehouse).fact_movimentacao_diaria,
      (fr.variacao_diaria = none ↔
        isEarliestDate xyzWarehouse.staging fr.ticker fr.data_id ∨
        prevCloseZero xyzWarehouse.staging fr.ticker fr.data_id) :=
  ⟨by decide, by decide,
    C1_variacao_diaria_null_iff xyzWarehouse (by decide) (by decide)⟩

/-- C2: the fact-building step stores
`(close - previous_close) / previous_close * 100` for a row with an
immediately preceding date for the same ticker, and null (not an error)
when that previous close is zero.  `p` is the immediately preceding row:
same ticker, earlier date, latest among the earlier dates. -/
theorem C2_variacao_diaria_formula (w : Warehouse)
    (hnn : ∀ r ∈ w.staging, r.date ≠ none ∧ r.close ≠ none)
    (hkey : (w.staging.map fun r => (r.symbol, r.date)).Nodup)
    (r p : StagingRow) (hr : r ∈ w.staging) (hp : p ∈ w.staging)
    (hsym : p.symbol = r.symbol) (hlt : dateLtB p.date r.date = true)
    (hmaxp : ∀ q ∈ w.staging, q.symbol = r.symbol → dateLtB q.date r.date = true →
      dateLtB p.date q.date = false)
    (c pc : ℚ) (hc : r.close = some c) (hpc : p.close = some pc) :
    ∃ fr ∈ (load_fact_table w).fact_movimentacao_diaria,
      fr.ticker = r.symbol ∧ fr.data_id = r.date ∧
      fr.variacao_diaria = if pc = 0 then none else some ((c - pc) / pc * 100) := by
  obtain ⟨i, hi⟩ := mkFactRows_mem_of_mem hr w.fact_id_seq
  exact ⟨factRowOf w.staging r i, hi, rfl, rfl,
    variacao_of_prev hnn hkey hp hsym hlt hmaxp hc hpc⟩

/-- Witness for C2 at the spec's scenario: closes `[10, 12, 9]` give
percentage changes `20.00` and `-25.00`. -/
theorem C2_variacao_diaria_formula_witness :
    (∃ fr ∈ (load_fact_table xyzWarehouse).fact_movimentacao_diaria,
      fr.ticker = "XYZ" ∧ fr.data_id = some 1 ∧ fr.variacao_diaria = some 20) ∧
    (∃ fr ∈ (load_fact_table xyzWarehouse).fact_movimentacao_diaria,
      fr.ticker = "XYZ" ∧ fr.data_id = some 2 ∧ fr.variacao_diaria = some (-25)) := by
  constructor
  · obtain ⟨fr, hmem, ht, hd, hv⟩ :=
      C2_variacao_diaria_formula xyzWarehouse (by decide) (by decide)
        ⟨some 1, "XYZ", none, none, none, some 12, none⟩
        ⟨some 0, "XYZ", none, none, none, some 10, none⟩
        (by decide) (by decide) (by decide) (by decide) (by decide)
        12 10 (by decide) (by decide)
    exact ⟨fr, hmem, ht, hd, by rw [hv]; norm_num⟩
  · obtain ⟨fr, hmem, ht, hd, hv⟩ :=
      C2_variacao_diaria_formula xyzWarehouse (by decide) (by decide)
        ⟨some 2, "XYZ", none, none, none, some 9, none⟩
        ⟨some 1, "XYZ", none, none, none, some 12, none⟩
        (by decide) (by decide) (by decide) (by decide) (by decide)
        9 12 (by decide) (by decide)
    exact ⟨fr, hmem, ht, hd, by rw [hv]; norm_num⟩

/-! ### C5: the quality gate predicate -/

/-- C5: the Quality Gate's predicate is true exactly when staging holds the
expected 750,000 rows and no row has a null `date` or `close`; and the
source predicate coincides with the expected-count-parameterized gate
instantiated at 750,000. -/
theorem C5_quality_gate_predicate (s : List StagingRow) :
    (run_data_quality_checks s = true ↔
      s.length = 750000 ∧ ∀ r ∈ s, r.date ≠ none ∧ r.close ≠ none) ∧
    run_data_quality_checks s = qualityGatePredicate 750000 s := by
  refine ⟨?_, rfl⟩
  unfold run_data_quality_checks
  rw [Bool.and_eq_true, decide_eq_true_iff, decide_eq_true_iff, List.countP_eq_zero]
  constructor
  · rintro ⟨h1, h2⟩
    refine ⟨h1, fun r hr => ?_⟩
    have hred := h2 r hr
    simp at hred
    exact ⟨hred.2, hred.1⟩
  · rintro ⟨h1, h2⟩
    refine ⟨h1, fun r hr => ?_⟩
    simp
    exact ⟨(h2 r hr).2, (h2 r hr).1⟩

/-! ### C3 and C4: retry behaviour of the quality gate and the locate step -/

/-- C3 counterexample: the DAG's `default_args` grant every task, including
`run_data_quality_checks`, 3 retries, so a persistently false quality check
executes 4 attempts, not exactly one. -/
theorem C3_quality_check_retry_cex :
    airflow_task_attempts default_args_retries sql_check_failure_kind = 4 ∧
    airflow_task_attempts default_args_retries sql_check_failure_kind ≠ 1 := by
  decide

/-- C3 amended: a false quality-gate predicate makes the run fail
terminally, but the quality-check task is retried like every task — it
executes `default_args.retries + 1 = 4` attempts, not exactly one. -/
theorem C3_quality_gate_failure_amended (rows : List StagingRow) (w : Warehouse)
    (h : run_data_quality_checks rows = false) :
    (financial_volatility_pipeline (some rows) w).2 = RunStatus.failed ∧
    airflow_task_attempts default_args_retries sql_check_failure_kind =
      default_args_retries + 1 := by
  rw [run_fail h]
  exact ⟨rfl, rfl⟩

/-- Witness for the amended C3 at an empty (hence count-violating) staging
load. -/
theorem C3_quality_gate_failure_amended_witness :
    run_data_quality_checks [] = false ∧
    ((financial_volatility_pipeline (some []) emptyWarehouse).2 = RunStatus.failed ∧
     airflow_task_attempts default_args_retries sql_check_failure_kind =
       default_args_retries + 1) :=
  ⟨by decide, C3_quality_gate_failure_amended [] emptyWarehouse (by decide)⟩

/-- C4 counterexample: `_locate_csv` raises `FileNotFoundError`, an ordinary
exception, and `default_args` grant 3 retries, so the locate task on a
missing file executes 4 attempts, not exactly one. -/
theorem C4_locate_csv_retry_cex :
    airflow_task_attempts default_args_retries locate_csv_failure_kind = 4 ∧
    airflow_task_attempts default_args_retries locate_csv_failure_kind ≠ 1 := by
  decide

/-- C4 amended: an absent source CSV fails the run with every warehouse
relation untouched (no downstream task runs), but the locate task is
retried like every task — `default_args.retries + 1 = 4` attempts, not
one. -/
theorem C4_missing_csv_amended (w : Warehouse) :
    financial_volatility_pipeline none w = (w, RunStatus.failed) ∧
    airflow_task_attempts default_args_retries locate_csv_failure_kind =
      default_args_retries + 1 :=
  ⟨rfl, rfl⟩

/-! ### C6: a failed gate leaves downstream relations untouched -/

/-- C6: whenever the Quality Gate's predicate is false, the run terminates
failed and `fact_movimentacao_diaria` and `volatility_weekly` retain exactly
their contents from before the run. -/
theorem C6_gate_failure_preserves_downstream (rows : List StagingRow)
    (w : Warehouse) (h : run_data_quality_checks rows = false) :
    (financial_volatility_pipeline (some rows) w).1.fact_movimentacao_diaria =
      w.fact_movimentacao_diaria ∧
    (financial_volatility_pipeline (some rows) w).1.volatility_weekly =
      w.volatility_weekly ∧
    (financial_volatility_pipeline (some rows) w).2 = RunStatus.failed := by
  rw [run_fail h]
  exact ⟨rfl, rfl, rfl⟩

/-- A warehouse carrying contents from a prior successful run. -/
def priorWarehouse : Warehouse :=
  ⟨[], [⟨"ABC", "Ativo ABC", "Acao"⟩], [⟨0, 1970, 1, 4⟩],
   [⟨1, "ABC", some 0, none, none, none, some 10, none, none⟩], 1,
   [⟨"ABC", some (-3), none⟩]⟩

/-- Witness for C6: a failing load (empty staging, violating the expected
row count) leaves the prior fact and volatility contents in place. -/
theorem C6_gate_failure_preserves_downstream_witness :
    run_data_quality_checks [] = false ∧
    ((financial_volatility_pipeline (some []) priorWarehouse).1.fact_movimentacao_diaria =
      priorWarehouse.fact_movimentacao_diaria ∧
     (financial_volatility_pipeline (some []) priorWarehouse).1.volatility_weekly =
      priorWarehouse.volatility_weekly ∧
     (financial_volatility_pipeline (some []) priorWarehouse).2 = RunStatus.failed) :=
  ⟨by decide, C6_gate_failure_preserves_downstream [] priorWarehouse (by decide)⟩

/-! ### Upsert lemmas and C8 -/

lemma mem_distinctList {α : Type} [DecidableEq α] {a : α} :
    ∀ {l : List α}, a ∈ distinctList l ↔ a ∈ l := by
  intro l
  induction l with
  | nil => simp [distinctList]
  | cons x xs ih =>
    simp only [distinctList, List.mem_cons, List.mem_filter, decide_eq_true_eq]
    constructor
    · rintro (rfl | ⟨h1, _⟩)
      · exact Or.inl rfl
      · exact Or.inr (ih.mp h1)
    · rintro (rfl | h)
      · exact Or.inl rfl
      · by_cases hax : a = x
        · exact Or.inl hax
        · exact Or.inr ⟨ih.mpr h, hax⟩

lemma distinctList_nodup {α : Type} [DecidableEq α] :
    ∀ l : List α, (distinctList l).Nodup := by
  intro l
  induction l with
  | nil => simp [distinctList]
  | cons x xs ih =>
    simp only [distinctList]
    rw [List.nodup_cons]
    constructor
    · intro hx
      have hne := (List.mem_filter.mp hx).2
      simp at hne
    · exact List.Nodup.filter _ ih

lemma upsertRows_keys {κ ρ : Type} [DecidableEq κ] (key : ρ → κ) (mk : κ → ρ)
    (hki : ∀ k, key (mk k) = k) (d : List ρ) (ks : List κ) :
    (upsertRows key mk d ks).map key =
      d.map key ++ (distinctList ks).filter (fun k => decide (k ∉ d.map key)) := by
  unfold upsertRows
  rw [List.map_append, List.map_map]
  congr 1
  have hcomp : key ∘ mk = id := funext hki
  rw [hcomp, List.map_id]

lemma upsertRows_keys_nodup {κ ρ : Type} [DecidableEq κ] (key : ρ → κ) (mk : κ → ρ)
    (hki : ∀ k, key (mk k) = k) {d : List ρ} (ks : List κ)
    (hd : (d.map key).Nodup) : ((upsertRows key mk d ks).map key).Nodup := by
  rw [upsertRows_keys key mk hki]
  rw [List.nodup_append]
  refine ⟨hd, List.Nodup.filter _ (distinctList_nodup ks), ?_⟩
  intro a ha hb
  have hnot := (List.mem_filter.mp hb).2
  rw [decide_eq_true_eq] at hnot
  exact hnot ha

lemma upsertRows_idem {κ ρ : Type} [DecidableEq κ] (key : ρ → κ) (mk : κ → ρ)
    (hki : ∀ k, key (mk k) = k) (d : List ρ) (ks : List κ) :
    upsertRows key mk (upsertRows key mk d ks) ks = upsertRows key mk d ks := by
  have hnil : (distinctList ks).filter
      (fun k => decide (k ∉ (upsertRows key mk d ks).map key)) = [] := by
    rw [List.filter_eq_nil_iff]
    intro k hk
    simp only [decide_eq_true_eq, Decidable.not_not]
    rw [upsertRows_keys key mk hki]
    by_cases hkd : k ∈ d.map key
    · exact List.mem_append_left _ hkd
    · exact List.mem_append_right _ (List.mem_filter.mpr ⟨hk, by simp [hkd]⟩)
  rw [upsertRows, hnil]
  simp

lemma run_dim_extends (c : Option (List StagingRow)) (w : Warehouse) :
    (∃ e, (financial_volatility_pipeline c w).1.dim_instrumento =
      w.dim_instrumento ++ e) ∧
    (∃ e, (financial_volatility_pipeline c w).1.dim_tempo = w.dim_tempo ++ e) ∧
    ((w.dim_instrumento.map DimInstrumentoRow.ticker).Nodup →
      ((financial_volatility_pipeline c w).1.dim_instrumento.map
        DimInstrumentoRow.ticker).Nodup) ∧
    ((w.dim_tempo.map DimTempoRow.data_id).Nodup →
      ((financial_volatility_pipeline c w).1.dim_tempo.map
        DimTempoRow.data_id).Nodup) := by
  cases c with
  | none =>
    exact ⟨⟨[], (List.append_nil _).symm⟩, ⟨[], (List.append_nil _).symm⟩,
      fun h => h, fun h => h⟩
  | some rows =>
    cases h : run_data_quality_checks rows with
    | false =>
      rw [run_fail h]
      exact ⟨⟨[], (List.append_nil _).symm⟩, ⟨[], (List.append_nil _).symm⟩,
        fun h => h, fun h => h⟩
    | true =>
      rw [run_success h]
      simp only [calculate_volatility_view_dim_instrumento,
        load_fact_table_dim_instrumento, create_dim_tables_dim_instrumento,
        calculate_volatility_view_dim_tempo, load_fact_table_dim_tempo,
        create_dim_tables_dim_tempo]
      refine ⟨⟨_, rfl⟩, ⟨_, rfl⟩, ?_, ?_⟩
      · intro hn
        exact upsertRows_keys_nodup _ _ (fun k => rfl) _ hn
      · intro hn
        exact upsertRows_keys_nodup _ _ (fun k => rfl) _ hn

/-- C8: across any number of runs, the dimension tables never accumulate
duplicate keys, and rows already present are never modified — every run only
appends (first-write-wins upsert). -/
theorem C8_dim_keys_nodup_and_immutable (csvs : List (Option (List StagingRow)))
    (w : Warehouse)
    (h1 : (w.dim_instrumento.map DimInstrumentoRow.ticker).Nodup)
    (h2 : (w.dim_tempo.map DimTempoRow.data_id).Nodup) :
    ((pipeline_runs csvs w).dim_instrumento.map DimInstrumentoRow.ticker).Nodup ∧
    ((pipeline_runs csvs w).dim_tempo.map DimTempoRow.data_id).Nodup ∧
    (∃ e, (pipeline_runs csvs w).dim_instrumento = w.dim_instrumento ++ e) ∧
    (∃ e, (pipeline_runs csvs w).dim_tempo = w.dim_tempo ++ e) := by
  induction csvs generalizing w with
  | nil =>
    exact ⟨h1, h2, ⟨[], (List.append_nil _).symm⟩, ⟨[], (List.append_nil _).symm⟩⟩
  | cons c cs ih =>
    obtain ⟨⟨e1, he1⟩, ⟨e2, he2⟩, hn1, hn2⟩ := run_dim_extends c w
    obtain ⟨ha, hb, ⟨f1, hf1⟩, ⟨f2, hf2⟩⟩ :=
      ih (financial_volatility_pipeline c w).1 (hn1 h1) (hn2 h2)
    refine ⟨ha, hb, ⟨e1 ++ f1, ?_⟩, ⟨e2 ++ f2, ?_⟩⟩
    · show (pipeline_runs cs (financial_volatility_pipeline c w).1).dim_instrumento = _
      rw [hf1, he1, List.append_assoc]
    · show (pipeline_runs cs (financial_volatility_pipeline c w).1).dim_tempo = _
      rw [hf2, he2, List.append_assoc]

/-- Witness for C8: one run over the `XYZ` staging from the empty
warehouse. -/
theorem C8_dim_keys_nodup_and_immutable_witness :
    ((emptyWarehouse.dim_instrumento.map DimInstrumentoRow.ticker).Nodup ∧
     (emptyWarehouse.dim_tempo.map DimTempoRow.data_id).Nodup) ∧
    (((pipeline_runs [some xyzStaging] emptyWarehouse).dim_instrumento.map
        DimInstrumentoRow.ticker).Nodup ∧
     ((pipeline_runs [some xyzStaging] emptyWarehouse).dim_tempo.map
        DimTempoRow.data_id).Nodup ∧
     (∃ e, (pipeline_runs [some xyzStaging] emptyWarehouse).dim_instrumento =
       emptyWarehouse.dim_instrumento ++ e) ∧
     (∃ e, (pipeline_runs [some xyzStaging] emptyWarehouse).dim_tempo =
       emptyWarehouse.dim_tempo ++ e)) :=
  ⟨⟨by decide, by decide⟩,
    C8_dim_keys_nodup_and_immutable [some xyzStaging] emptyWarehouse
      (by decide) (by decide)⟩

/-! ### C7: rerunning on identical source data -/

/-- Every column of a fact row except the surrogate `id`. -/
def factCore (fr : FactRow) :
    String × Option ℤ × Option ℚ × Option ℚ × Option ℚ × Option ℚ × Option ℤ × Option ℚ :=
  (fr.ticker, fr.data_id, fr.«open», fr.high, fr.low, fr.close, fr.volume,
    fr.variacao_diaria)

lemma factCols_mkFactRows (s : List StagingRow) :
    ∀ (l : List StagingRow) (seq : ℕ),
      factCols (mkFactRows s l seq) =
        l.map (fun r => (r.symbol, r.date, variacao_diaria_expr s r)) := by
  intro l
  induction l with
  | nil => intro _; rfl
  | cons r rs ih =>
    intro seq
    show (r.symbol, r.date, variacao_diaria_expr s r) ::
        factCols (mkFactRows s rs (seq + 1)) = _
    rw [ih (seq + 1)]
    rfl

lemma factCore_mkFactRows (s : List StagingRow) :
    ∀ (l : List StagingRow) (seq : ℕ),
      (mkFactRows s l seq).map factCore =
        l.map (fun r => (r.symbol, r.date, r.«open», r.high, r.low, r.close,
          r.volume, variacao_diaria_expr s r)) := by
  intro l
  induction l with
  | nil => intro _; rfl
  | cons r rs ih =>
    intro seq
    show (r.symbol, r.date, r.«open», r.high, r.low, r.close, r.volume,
        variacao_diaria_expr s r) :: (mkFactRows s rs (seq + 1)).map factCore = _
    rw [ih (seq + 1)]
    rfl

lemma update_staging_self (w : Warehouse) (rows : List StagingRow)
    (h : w.staging = rows) : { w with staging := rows } = w := by
  cases w with
  | mk a b c d e f =>
    have h' : a = rows := h
    subst h'
    rfl

lemma run_staging (rows : List StagingRow) (w : Warehouse) :
    (financial_volatility_pipeline (some rows) w).1.staging = rows := by
  cases h : run_data_quality_checks rows with
  | false => rw [run_fail h]
  | true => rw [run_success h]; rfl

/-- C7 amended: a second run on identical source data reproduces the first
run's `dim_instrumento`, `dim_tempo` and `volatility_weekly` exactly, and
reproduces `fact_movimentacao_diaria` in every column except the surrogate
`id` (whose serial sequence keeps counting across the `TRUNCATE`). -/
theorem C7_second_run_amended (csv : Option (List StagingRow)) (w : Warehouse) :
    (financial_volatility_pipeline csv
        (financial_volatility_pipeline csv w).1).1.dim_instrumento =
      (financial_volatility_pipeline csv w).1.dim_instrumento ∧
    (financial_volatility_pipeline csv
        (financial_volatility_pipeline csv w).1).1.dim_tempo =
      (financial_volatility_pipeline csv w).1.dim_tempo ∧
    (financial_volatility_pipeline csv
        (financial_volatility_pipeline csv w).1).1.volatility_weekly =
      (financial_volatility_pipeline csv w).1.volatility_weekly ∧
    (financial_volatility_pipeline csv
        (financial_volatility_pipeline csv w).1).1.fact_movimentacao_diaria.map
        factCore =
      (financial_volatility_pipeline csv w).1.fact_movimentacao_diaria.map
        factCore := by
  cases csv with
  | none => exact ⟨rfl, rfl, rfl, rfl⟩
  | some rows =>
    have hst := run_staging rows w
    have hupd : ({ (financial_volatility_pipeline (some rows) w).1 with
        staging := rows } : Warehouse) =
        (financial_volatility_pipeline (some rows) w).1 :=
      update_staging_self _ rows hst
    cases h : run_data_quality_checks rows with
    | false =>
      have h2 := @run_fail rows (financial_volatility_pipeline (some rows) w).1 h
      rw [hupd] at h2
      rw [h2]
      exact ⟨rfl, rfl, rfl, rfl⟩
    | true =>
      have h1 := @run_success rows w h
      have h2 := @run_success rows (financial_volatility_pipeline (some rows) w).1 h
      rw [hupd] at h2
      have hW1 : (financial_volatility_pipeline (some rows) w).1 =
          calculate_volatility_view (load_fact_table
            (create_dim_tables { w with staging := rows })) := by
        rw [h1]
      rw [h2, hW1]
      simp only [calculate_volatility_view_dim_instrumento,
        calculate_volatility_view_dim_tempo, calculate_volatility_view_vol,
        calculate_volatility_view_fact, calculate_volatility_view_staging,
        calculate_volatility_view_seq, load_fact_table_dim_instrumento,
        load_fact_table_dim_tempo, load_fact_table_fact, load_fact_table_staging,
        load_fact_table_seq, create_dim_tables_dim_instrumento,
        create_dim_tables_dim_tempo, create_dim_tables_staging,
        create_dim_tables_seq, create_dim_tables_fact]
      refine ⟨?_, ?_, ?_, ?_⟩
      · exact upsertRows_idem _ _ (fun k => rfl) _ _
      · exact upsertRows_idem _ _ (fun k => rfl) _ _
      · rw [factCols_mkFactRows, factCols_mkFactRows]
      · rw [factCore_mkFactRows, factCore_mkFactRows]

/-- One staged row of the 750,000-row source used for the C7 counterexample. -/
def bigRow : StagingRow := ⟨some 0, "XYZ", none, none, none, some 10, none⟩

/-- A 750,000-row source that passes the quality gate. -/
def bigStaging : List StagingRow := List.replicate 750000 bigRow

lemma bigStaging_len : bigStaging.length = 750000 := by
  show (List.replicate 750000 bigRow).length = 750000
  exact List.length_replicate 750000 bigRow

lemma bigStaging_cons : bigStaging = bigRow :: List.replicate 749999 bigRow := by
  show List.replicate 750000 bigRow = _
  rw [show (750000 : ℕ) = 749999 + 1 from rfl, List.replicate_succ]

lemma bigStaging_gate : run_data_quality_checks bigStaging = true := by
  have hcount : bigStaging.countP
      (fun r => decide (r.close = none) || decide (r.date = none)) = 0 := by
    rw [List.countP_eq_zero]
    intro a ha
    have ha' : a ∈ List.replicate 750000 bigRow := ha
    rw [List.eq_of_mem_replicate ha']
    decide
  unfold run_data_quality_checks
  rw [bigStaging_len, hcount]
  decide

/-- First run over the 750,000-row source from the empty warehouse. -/
lemma bigRun1_eq :
    (financial_volatility_pipeline (some bigStaging) emptyWarehouse).1 =
      calculate_volatility_view (load_fact_table
        (create_dim_tables { emptyWarehouse with staging := bigStaging })) := by
  rw [@run_success bigStaging emptyWarehouse bigStaging_gate]

lemma bigRun1_seq :
    (financial_volatility_pipeline (some bigStaging)
      emptyWarehouse).1.fact_id_seq = 750000 := by
  have eseq : ({ emptyWarehouse with staging := bigStaging } : Warehouse).fact_id_seq
      = 0 := rfl
  have est : ({ emptyWarehouse with staging := bigStaging } : Warehouse).staging
      = bigStaging := rfl
  rw [bigRun1_eq, calculate_volatility_view_seq, load_fact_table_seq,
    create_dim_tables_seq, create_dim_tables_staging, eseq, est, bigStaging_len]

lemma bigRun1_fact :
    (financial_volatility_pipeline (some bigStaging)
      emptyWarehouse).1.fact_movimentacao_diaria =
      mkFactRows bigStaging bigStaging 0 := by
  have eseq : ({ emptyWarehouse with staging := bigStaging } : Warehouse).fact_id_seq
      = 0 := rfl
  have est : ({ emptyWarehouse with staging := bigStaging } : Warehouse).staging
      = bigStaging := rfl
  rw [bigRun1_eq, calculate_volatility_view_fact, load_fact_table_fact,
    create_dim_tables_staging, create_dim_tables_seq, eseq, est]

lemma bigStaging_hst :
    (financial_volatility_pipeline (some bigStaging)
      emptyWarehouse).1.staging = bigStaging :=
  run_staging _ _

lemma bigStaging_hupd :
    ({ (financial_volatility_pipeline (some bigStaging)
        emptyWarehouse).1 with staging := bigStaging } : Warehouse) =
      (financial_volatility_pipeline (some bigStaging) emptyWarehouse).1 :=
  update_staging_self _ _ bigStaging_hst

lemma bigRun2_eq :
    financial_volatility_pipeline (some bigStaging)
      (financial_volatility_pipeline (some bigStaging) emptyWarehouse).1 =
      (calculate_volatility_view (load_fact_table (create_dim_tables
        (financial_volatility_pipeline (some bigStaging) emptyWarehouse).1)),
       RunStatus.succeeded) := by
  have h2 := @run_success bigStaging
    (financial_volatility_pipeline (some bigStaging) emptyWarehouse).1 bigStaging_gate
  rw [bigStaging_hupd] at h2
  exact h2

lemma bigRun2_eq1 :
    (financial_volatility_pipeline (some bigStaging)
      (financial_volatility_pipeline (some bigStaging) emptyWarehouse).1).1 =
      calculate_volatility_view (load_fact_table (create_dim_tables
        (financial_volatility_pipeline (some bigStaging) emptyWarehouse).1)) := by
  rw [bigRun2_eq]

lemma bigRun2_fact :
    (financial_volatility_pipeline (some bigStaging)
      (financial_volatility_pipeline (some bigStaging)
        emptyWarehouse).1).1.fact_movimentacao_diaria =
      mkFactRows bigStaging bigStaging 750000 := by
  rw [bigRun2_eq1, calculate_volatility_view_fact, load_fact_table_fact,
    create_dim_tables_staging, create_dim_tables_seq, bigStaging_hst, bigRun1_seq]

lemma mkFactRows_big_head_id (seq : ℕ) :
    Option.map FactRow.id (mkFactRows bigStaging bigStaging seq).head? =
      some (seq + 1) := by
  rw [bigStaging_cons]
  rfl

/-- C7 counterexample: two successive runs on the identical 750,000-row
source leave different `fact_movimentacao_diaria` contents — the `SERIAL`
sequence continues across the `TRUNCATE`, so the second run's first row has
id 750001 while the first run's has id 1. -/
theorem C7_idempotence_cex :
    (financial_volatility_pipeline (some bigStaging)
        (financial_volatility_pipeline (some bigStaging)
          emptyWarehouse).1).1.fact_movimentacao_diaria ≠
    (financial_volatility_pipeline (some bigStaging)
        emptyWarehouse).1.fact_movimentacao_diaria := by
  rw [bigRun2_fact, bigRun1_fact]
  intro heq
  have hid := congrArg (Option.map FactRow.id) (congrArg List.head? heq)
  rw [mkFactRows_big_head_id, mkFactRows_big_head_id] at hid
  have : (750000 : ℕ) + 1 = 0 + 1 := Option.some.inj hid
  omega

/-! ### C9 and C10: the volatility view and the reporter -/

lemma volRankGt_none_none : volRankGt none none = False := rfl

lemma volRankGt_none_some (b : ℝ) : volRankGt none (some b) = True := rfl

lemma volRankGt_some_none (a : ℝ) : volRankGt (some a) none = False := rfl

lemma volRankGt_some_some (a b : ℝ) : volRankGt (some a) (some b) = (b < a) := rfl

lemma volRankGt_irrefl (a : Option ℝ) : ¬ volRankGt a a := by
  cases a with
  | none => exact fun h => h
  | some x => exact fun h => absurd h (lt_irrefl x)

lemma volRankGt_trans {a b c : Option ℝ} (h1 : volRankGt a b)
    (h2 : volRankGt b c) : volRankGt a c := by
  cases a with
  | none =>
    cases c with
    | none =>
      cases b with
      | none => exact h1.elim
      | some y => exact h2.elim
    | some z => exact trivial
  | some x =>
    cases b with
    | none => exact h1.elim
    | some y =>
      cases c with
      | none => exact h2.elim
      | some z => exact lt_trans h2 h1

lemma volRankGt_neg_trans {a b c : Option ℝ} (h1 : ¬ volRankGt a b)
    (h2 : ¬ volRankGt b c) : ¬ volRankGt a c := by
  cases a with
  | none =>
    cases b with
    | none => exact h2
    | some y => exact absurd trivial h1
  | some x =>
    cases c with
    | none => exact fun h => h
    | some z =>
      cases b with
      | none => exact absurd trivial h2
      | some y =>
        rw [volRankGt_some_some] at h1 h2 ⊢
        exact not_lt.mpr (le_trans (not_lt.mp h1) (not_lt.mp h2))

open Classical in
lemma pickTop_cons_some (m x : String × Option ℝ) (xs : List (String × Option ℝ)) :
    pickTop (some m) (x :: xs) =
      pickTop (some (if volRankGt x.2 m.2 then x else m)) xs := rfl

open Classical in
lemma pickTop_some_spec :
    ∀ (l : List (String × Option ℝ)) (m : String × Option ℝ),
      ∃ p, pickTop (some m) l = some p ∧ (p = m ∨ p ∈ l) ∧
        ¬ volRankGt m.2 p.2 ∧ ∀ x ∈ l, ¬ volRankGt x.2 p.2 := by
  intro l
  induction l with
  | nil =>
    intro m
    exact ⟨m, rfl, Or.inl rfl, volRankGt_irrefl m.2,
      fun x hx => absurd hx (List.not_mem_nil x)⟩
  | cons x xs ih =>
    intro m
    by_cases hc : volRankGt x.2 m.2
    · have hm1 : (if volRankGt x.2 m.2 then x else m) = x := if_pos hc
      obtain ⟨p, hp, hmem, hnot, hall⟩ := ih (if volRankGt x.2 m.2 then x else m)
      rw [hm1] at hp hmem hnot
      refine ⟨p, ?_, ?_, ?_, ?_⟩
      · rw [pickTop_cons_some, hm1]
        exact hp
      · rcases hmem with h | h
        · exact Or.inr (h ▸ List.mem_cons_self x xs)
        · exact Or.inr (List.mem_cons_of_mem _ h)
      · exact fun h => hnot (volRankGt_trans hc h)
      · intro y hy
        rcases List.mem_cons.mp hy with h | h
        · rw [h]
          exact hnot
        · exact hall y h
    · have hm1 : (if volRankGt x.2 m.2 then x else m) = m := if_neg hc
      obtain ⟨p, hp, hmem, hnot, hall⟩ := ih (if volRankGt x.2 m.2 then x else m)
      rw [hm1] at hp hmem hnot
      refine ⟨p, ?_, ?_, hnot, ?_⟩
      · rw [pickTop_cons_some, hm1]
        exact hp
      · rcases hmem with h | h
        · exact Or.inl h
        · exact Or.inr (List.mem_cons_of_mem _ h)
      · intro y hy
        rcases List.mem_cons.mp hy with h | h
        · rw [h]
          exact volRankGt_neg_trans hc hnot
        · exact hall y h

lemma tickersOf_ne_nil {agg : List VolRow} (h : agg ≠ []) :
    tickersOf agg ≠ [] := by
  cases agg with
  | nil => exact absurd rfl h
  | cons v vs =>
    show (v.ticker ::
      (distinctList (vs.map VolRow.ticker)).filter (fun y => decide (y ≠ v.ticker)))
      ≠ []
    exact List.cons_ne_nil _ _

/-- C9 amended: the Reporter is total — an empty aggregate yields the
defined no-data message, and a nonempty aggregate yields a message naming
exactly one ticker, namely one ranked first by `AVG(vol) DESC` where a
`NULL` average sorts above every numeric average (PostgreSQL `NULLS FIRST`
under `DESC`); when no ticker has a null mean this is the ticker with the
highest mean weekly volatility. -/
theorem C9_reporter_amended (agg : List VolRow) :
    (agg = [] → report_top_volatility agg = ReportMessage.noData) ∧
    (agg ≠ [] → ∃ t a, report_top_volatility agg = ReportMessage.topVolatility t a ∧
      t ∈ tickersOf agg ∧ a = avg_vol agg t ∧
      ∀ u ∈ tickersOf agg, ¬ volRankGt (avg_vol agg u) a) := by
  constructor
  · intro h
    subst h
    rfl
  · intro h
    cases hT : tickersOf agg with
    | nil => exact absurd hT (tickersOf_ne_nil h)
    | cons t0 ts =>
      have hrep : report_top_volatility agg =
          (match pickTop (some (t0, avg_vol agg t0))
              (ts.map (fun t => (t, avg_vol agg t))) with
           | none => ReportMessage.noData
           | some (t, a) => ReportMessage.topVolatility t a) := by
        unfold report_top_volatility
        rw [hT]
        rfl
      obtain ⟨p, hp, hmem, hnot, hall⟩ :=
        pickTop_some_spec (ts.map (fun t => (t, avg_vol agg t)))
          (t0, avg_vol agg t0)
      obtain ⟨pt, pa⟩ := p
      have hpL : (pt, pa) ∈ (tickersOf agg).map (fun t => (t, avg_vol agg t)) := by
        rw [hT]
        rcases hmem with h1 | h1
        · rw [h1]
          exact List.mem_cons_self _ _
        · exact List.mem_cons_of_mem _ h1
      obtain ⟨t, ht, hteq⟩ := List.mem_map.mp hpL
      have h1 : t = pt := congrArg Prod.fst hteq
      subst h1
      have h2 : avg_vol agg t = pa := congrArg Prod.snd hteq
      subst h2
      refine ⟨t, avg_vol agg t, ?_, hT ▸ ht, rfl, ?_⟩
      · rw [hrep, hp]
      · intro u hu
        have hu2 : u ∈ tickersOf agg := hT.symm ▸ hu
        have huL : (u, avg_vol agg u) ∈
            (t0 :: ts).map (fun t => (t, avg_vol agg t)) := by
          rw [← hT]
          exact List.mem_map_of_mem _ hu2
        rcases List.mem_cons.mp huL with h1 | h1
        · have h2 : avg_vol agg u = avg_vol agg t0 := congrArg Prod.snd h1
          rw [h2]
          exact hnot
        · exact hall _ h1

/-- A one-row aggregate used as the C9 witness input. -/
def singletonAgg : List VolRow := [⟨"CCC", some 0, some 2⟩]

/-- Witness for the amended C9: the empty aggregate yields the no-data
message, and a concrete nonempty aggregate yields a single named ticker. -/
theorem C9_reporter_amended_witness :
    (report_top_volatility [] = ReportMessage.noData) ∧
    singletonAgg ≠ [] ∧
    (∃ t a, report_top_volatility singletonAgg = ReportMessage.topVolatility t a ∧
      t ∈ tickersOf singletonAgg ∧ a = avg_vol singletonAgg t ∧
      ∀ u ∈ tickersOf singletonAgg, ¬ volRankGt (avg_vol singletonAgg u) a) :=
  ⟨(C9_reporter_amended []).1 rfl, List.cons_ne_nil _ _,
    (C9_reporter_amended singletonAgg).2 (List.cons_ne_nil _ _)⟩

/-- An aggregate where ticker `AAA` has only a null weekly volatility (its
mean is `NULL`) while `BBB` has mean 5. -/
def nullMeanAgg : List VolRow :=
  [⟨"AAA", some 0, none⟩, ⟨"BBB", some 0, some 5⟩]

/-- C9 counterexample: on `nullMeanAgg` the Reporter names `AAA`, whose
mean weekly volatility is `NULL` (`ORDER BY avg DESC` puts `NULL` first in
PostgreSQL), not `BBB`, the ticker with the highest mean weekly
volatility (5). -/
theorem C9_reporter_cex :
    report_top_volatility nullMeanAgg = ReportMessage.topVolatility "AAA" none ∧
    avg_vol nullMeanAgg "AAA" = none ∧
    avg_vol nullMeanAgg "BBB" = some 5 := by
  have hA : avg_vol nullMeanAgg "AAA" = none := rfl
  have hB : avg_vol nullMeanAgg "BBB" = some 5 := by
    have h1 : avg_vol nullMeanAgg "BBB" =
        some (([(5 : ℝ)]).sum / (([(5 : ℝ)]).length : ℝ)) := rfl
    rw [h1]
    norm_num
  refine ⟨?_, hA, hB⟩
  have hT : tickersOf nullMeanAgg = ["AAA", "BBB"] := rfl
  unfold report_top_volatility
  rw [hT]
  rw [show (["AAA", "BBB"].map (fun t => (t, avg_vol nullMeanAgg t))) =
    [("AAA", avg_vol nullMeanAgg "AAA"), ("BBB", avg_vol nullMeanAgg "BBB")]
    from rfl]
  rw [hA, hB]
  rw [show pickTop none [("AAA", (none : Option ℝ)), ("BBB", some 5)] =
    pickTop (some ("AAA", (none : Option ℝ))) [("BBB", some 5)] from rfl]
  rw [pickTop_cons_some]
  rw [if_neg (fun hgt : volRankGt (some (5 : ℝ)) none => hgt)]
  rfl

lemma stddev_samp_singleton (x : ℚ) : stddev_samp [x] = none := by
  unfold stddev_samp
  rw [if_pos]
  simp

lemma filterMap_vol_filter_isSome (l : List VolRow) :
    (l.filter (fun v => v.vol.isSome)).filterMap VolRow.vol =
      l.filterMap VolRow.vol := by
  induction l with
  | nil => rfl
  | cons v vs ih =>
    cases hv : v.vol with
    | none => simp [List.filter_cons, List.filterMap_cons, hv, ih]
    | some a => simp [List.filter_cons, List.filterMap_cons, hv, ih]

lemma avg_vol_ignores_null (agg : List VolRow) (u : String) :
    avg_vol (agg.filter (fun v => v.vol.isSome)) u = avg_vol agg u := by
  unfold avg_vol
  have hcomm : (agg.filter (fun v => v.vol.isSome)).filter
        (fun v => decide (v.ticker = u)) =
      (agg.filter (fun v => decide (v.ticker = u))).filter
        (fun v => v.vol.isSome) := by
    rw [List.filter_filter, List.filter_filter]
    congr 1
    funext v
    exact Bool.and_comm _ _
  rw [hcomm, filterMap_vol_filter_isSome]

/-- C10: a `(ticker, week)` group with exactly one non-null daily
percentage change appears in `volatility_weekly` with a null volatility
(`STDDEV_SAMP` of a single observation), and the Reporter's per-ticker mean
is insensitive to null volatilities (`AVG` ignores `NULL`). -/
theorem C10_singleton_group_null_vol (w : Warehouse) (t : String)
    (wk : Option ℤ) (x : ℚ)
    (h : groupVarVals (factCols w.fact_movimentacao_diaria) (t, wk) = [x]) :
    (⟨t, wk, none⟩ : VolRow) ∈ (calculate_volatility_view w).volatility_weekly ∧
    ∀ (agg : List VolRow) (u : String),
      avg_vol (agg.filter (fun v => v.vol.isSome)) u = avg_vol agg u := by
  refine ⟨?_, fun agg u => avg_vol_ignores_null agg u⟩
  rw [calculate_volatility_view_vol]
  cases hF : ((factCols w.fact_movimentacao_diaria).filter
      (fun c => c.2.2.isSome)).filter
      (fun c => decide (volKeyOfCol c = (t, wk))) with
  | nil =>
    unfold groupVarVals at h
    rw [hF] at h
    simp at h
  | cons c0 rest =>
    have hc0F : c0 ∈ ((factCols w.fact_movimentacao_diaria).filter
        (fun c => c.2.2.isSome)).filter
        (fun c => decide (volKeyOfCol c = (t, wk))) := by
      rw [hF]
      exact List.mem_cons_self _ _
    have hc0 := List.mem_filter.mp hc0F
    have hkey : volKeyOfCol c0 = (t, wk) := by
      have := hc0.2
      rwa [decide_eq_true_eq] at this
    have hk : (t, wk) ∈ distinctList
        (((factCols w.fact_movimentacao_diaria).filter
          (fun c => c.2.2.isSome)).map volKeyOfCol) :=
      mem_distinctList.mpr (hkey ▸ List.mem_map_of_mem volKeyOfCol hc0.1)
    unfold volFromCols
    refine List.mem_map.mpr ⟨(t, wk), hk, ?_⟩
    show (⟨t, wk, stddev_samp
      (groupVarVals (factCols w.fact_movimentacao_diaria) (t, wk))⟩ : VolRow) =
      ⟨t, wk, none⟩
    rw [h, stddev_samp_singleton]

/-- A warehouse whose fact table has one `XYZ` row with a non-null daily
variation. -/
def singleFactWarehouse : Warehouse :=
  ⟨[], [], [], [⟨1, "XYZ", some 0, none, none, none, some 10, none, some 5⟩],
   1, []⟩

/-- Witness for C10: the one-row group `("XYZ", week of epoch day 0)` shows
up in the refreshed view with a null volatility. -/
theorem C10_singleton_group_null_vol_witness :
    groupVarVals (factCols singleFactWarehouse.fact_movimentacao_diaria)
      ("XYZ", some (-3)) = [5] ∧
    ((⟨"XYZ", some (-3), none⟩ : VolRow) ∈
      (calculate_volatility_view singleFactWarehouse).volatility_weekly ∧
     ∀ (agg : List VolRow) (u : String),
       avg_vol (agg.filter (fun v => v.vol.isSome)) u = avg_vol agg u) :=
  ⟨by decide,
    C10_singleton_group_null_vol singleFactWarehouse "XYZ" (some (-3)) 5
      (by decide)⟩
